import Mathlib

/-!
# Verification of the ld-relay request layer

A shallow embedding of the request-handling layer of `ld-relay.go`
(authorization token extraction, credential lookup, base64url user decoding,
the evaluate-all-flags handler, the status handler, the goals passthrough,
and the per-environment startup registration logic), together with theorems
settling the specification claims about those functions.

Conventions:
* Go byte slices are `List Nat` with every element below 256.
* Go `map[string]V` values whose entries may be `nil` are `List (String × Option V)`
  association lists (keys unique in a real Go map); a lookup that misses or finds
  a `nil` entry both yield `none`, exactly as the Go code only ever tests `== nil`.
* External library calls (the JSON parser of `encoding/json`, the upstream HTTP
  client, the SDK client constructor) are abstracted as function parameters or
  explicit result values; everything taken from `ld-relay.go` itself is translated
  operation by operation.
* A Go `nil`-pointer dereference is modelled by an explicit `panicked` outcome.
-/

/-! # Definitions -/

/-! ## Authorization header pattern (uuidHeaderPattern, ld-relay.go line 39)

The Go regex is
`^(?:api_key )?((?:[a-z]{3}-)?[a-f0-9]{8}-[a-f0-9]{4}-4[a-f0-9]{3}-[89aAbB][a-f0-9]{3}-[a-f0-9]{12})$`.
We embed it as an explicit matcher over character lists: `matchesUuid` is the
UUID body, `matchesToken` adds the optional three-lowercase-letter dash group,
and `matchHeader` adds the optional `api_key ` lead and the anchors, returning
the capture group exactly as `FindStringSubmatch` would. -/

def isLowerAlpha (c : Char) : Bool := 'a' ≤ c && c ≤ 'z'

def isHexLower (c : Char) : Bool := ('a' ≤ c && c ≤ 'f') || ('0' ≤ c && c ≤ '9')

/-- Consume exactly `n` characters of `[a-f0-9]`, returning the rest. -/
def takeHex : Nat → List Char → Option (List Char)
  | 0, cs => some cs
  | _ + 1, [] => none
  | n + 1, c :: cs => if isHexLower c then takeHex n cs else none

/-- Consume one expected literal character. -/
def expectChar (x : Char) : List Char → Option (List Char)
  | c :: cs => if c = x then some cs else none
  | [] => none

/-- Consume one character of the class `[89aAbB]`. -/
def expectVariantChar : List Char → Option (List Char)
  | c :: cs =>
      if c = '8' || c = '9' || c = 'a' || c = 'A' || c = 'b' || c = 'B' then some cs
      else none
  | [] => none

/-- The UUID body `[a-f0-9]{8}-[a-f0-9]{4}-4[a-f0-9]{3}-[89aAbB][a-f0-9]{3}-[a-f0-9]{12}`,
anchored at the end of the input. -/
def matchesUuid (cs : List Char) : Bool :=
  match (do
    let r ← takeHex 8 cs
    let r ← expectChar '-' r
    let r ← takeHex 4 r
    let r ← expectChar '-' r
    let r ← expectChar '4' r
    let r ← takeHex 3 r
    let r ← expectChar '-' r
    let r ← expectVariantChar r
    let r ← takeHex 3 r
    let r ← expectChar '-' r
    takeHex 12 r) with
  | some [] => true
  | _ => false

/-- The capture group `(?:[a-z]{3}-)?<uuid>`. -/
def matchesToken (cs : List Char) : Bool :=
  matchesUuid cs ||
    (match cs with
     | a :: b :: c :: '-' :: rest =>
         isLowerAlpha a && isLowerAlpha b && isLowerAlpha c && matchesUuid rest
     | _ => false)

def apiKeyChars : List Char := "api_key ".toList

/-- Full anchored match of `uuidHeaderPattern`, returning the capture group.
The greedy optional `(?:api_key )?` is tried first, as Go regexp
(leftmost-first, greedy) would. -/
def matchHeader (cs : List Char) : Option (List Char) :=
  if cs.take 8 = apiKeyChars ∧ matchesToken (cs.drop 8) then some (cs.drop 8)
  else if matchesToken cs then some cs
  else none

/-- `fetchAuthToken` (ld-relay.go lines 488-498): reads the `Authorization`
header, matches it against `uuidHeaderPattern`, and returns the captured token
or the error `No valid token found`. -/
def fetchAuthToken (authHdr : String) : Except String String :=
  match matchHeader authHdr.toList with
  | some t => .ok (String.mk t)
  | none => .error "No valid token found"

/-! ## Go map lookup

The handler maps (`clients`, `mobileClients`, `clientSideClients`, `handlers`,
`eventHandlers`) are Go maps whose values may be `nil`.  The handlers only ever
test the looked-up value against `nil`, and a lookup that misses a Go map also
returns `nil`, so both cases collapse to `none` here.  Keys of a Go map are
unique; the association list is searched front to back. -/

def goMapLookup {V : Type} (m : List (String × Option V)) (k : String) : Option V :=
  match m.find? (fun p => p.1 == k) with
  | some p => p.2
  | none => none

/-! ## authorizeMethod (ld-relay.go lines 299-363)

The wrapper around every credential-authorized endpoint.  `rejected st b`
means the wrapper wrote status `st` with body `b` and returned without
invoking the wrapped handler; `passed v` means the wrapped handler was
invoked with environment handle `v` in the request context. -/

inductive AuthOutcome (V : Type) where
  | rejected (status : Nat) (body : String)
  | passed (v : V)
deriving DecidableEq

/-- `authorizeMethod`: extract the token with `fetchAuthToken`; on error reply
401 with no body written; otherwise look the token up in the endpoint kind
map; on `nil` reply 401 with the literal body; otherwise pass the handle on. -/
def authorizeMethod {V : Type} (authKeyMap : List (String × Option V)) (authHeader : String) :
    AuthOutcome V :=
  match fetchAuthToken authHeader with
  | .error _ => .rejected 401 ""
  | .ok authKey =>
    match goMapLookup authKeyMap authKey with
    | none => .rejected 401 "ld-relay is not configured for the provided key"
    | some v => .passed v

/-! ## getStatus (ld-relay.go lines 265-297)

The `/status` handler iterates the server-credential map, classifying each
entry as `connected` exactly when the stored handle is non-`nil` and its
`Initialized()` reports true, tracking a `healthy` boolean that is cleared on
every `disconnected` entry.  The `*ld.LDClient` handle is modelled by the one
bit the handler reads from it. -/

structure LDClientM where
  initialized : Bool
deriving DecidableEq

def statusConnected (v : Option LDClientM) : Bool :=
  match v with
  | none => false
  | some c => c.initialized

/-- One iteration of the `getStatus` loop body. -/
def statusStep (acc : List (String × String) × Bool) (p : String × Option LDClientM) :
    List (String × String) × Bool :=
  match p.2 with
  | none => (acc.1 ++ [(p.1, "disconnected")], false)
  | some c =>
      if c.initialized then (acc.1 ++ [(p.1, "connected")], acc.2)
      else (acc.1 ++ [(p.1, "disconnected")], false)

/-- `getStatus`: the per-credential entries and the top-level status string. -/
def getStatus (clients : List (String × Option LDClientM)) :
    List (String × String) × String :=
  let r := clients.foldl statusStep ([], true)
  (r.1, if r.2 then "healthy" else "degraded")

/-! ## findEnvironment (ld-relay.go lines 365-379)

The wrapper of the browser routes: it reads the `envId` mux path variable
(never the `Authorization` header), looks it up in the browser map, replies
404 on a `nil` result, and otherwise invokes the inner handler with the
handle in the request context.  `_authHeader` is carried to state formally
that the outcome does not depend on it. -/

inductive FindOutcome (V : Type) where
  | rejected (status : Nat) (body : String)
  | passed (v : V)
deriving DecidableEq

def findEnvironment {V : Type} (clients : List (String × Option V)) (envId : String)
    (_authHeader : String) : FindOutcome V :=
  match goMapLookup clients envId with
  | none => .rejected 404 ("ld-relay is not configured for environment id " ++ envId)
  | some v => .passed v

/-! ## Per-environment startup registration (ld-relay.go lines 160-207)

For each environment the goroutine constructs the SDK client and then:
installs the credential map entries (`clients`, `mobileClients`,
`clientSideClients`) unconditionally, in particular BEFORE checking the
initialisation error; then, if the client errored and
`ignoreConnectionErrors` is unset, logs and calls `os.Exit(1)` when
`exitOnError` is set; otherwise installs the SSE stream handler and, when
`sendEvents` is set, the event-forwarding handler.  `clientEntries` records
whether the credential map entries were installed, `exitCode` whether
`os.Exit` was called (the value Go passes is 1). -/

structure EnvSetupOutcome where
  exitCode : Option Nat
  clientEntries : Bool
  streamHandler : Bool
  eventHandler : Bool
deriving DecidableEq

def setupEnvironment (exitOnError ignoreConnectionErrors sendEvents initErr : Bool) :
    EnvSetupOutcome :=
  if initErr && !ignoreConnectionErrors then
    if exitOnError then
      { exitCode := some 1, clientEntries := true, streamHandler := false, eventHandler := false }
    else
      { exitCode := none, clientEntries := true, streamHandler := false, eventHandler := false }
  else
    { exitCode := none, clientEntries := true, streamHandler := true, eventHandler := sendEvents }

/-! ## base64url (base64urlDecode, ld-relay.go lines 470-486)

`base64urlDecode` first tries the padded decoder (`base64.URLEncoding`) and,
if that errors, the raw unpadded decoder (`base64.RawURLEncoding`).  The Go
standard decoders are embedded over byte lists (`List Nat`): the padded
decoder consumes four-character quanta and requires the input length to be a
multiple of four, with `=` padding allowed only in the final quantum (Go
rejects data after padding); the raw decoder accepts a final quantum of two
or three characters and no `=` at all.  Both use the URL-safe alphabet. -/

def b64Alphabet : List Char :=
  ['A', 'B', 'C', 'D', 'E', 'F', 'G', 'H', 'I', 'J', 'K', 'L', 'M',
   'N', 'O', 'P', 'Q', 'R', 'S', 'T', 'U', 'V', 'W', 'X', 'Y', 'Z',
   'a', 'b', 'c', 'd', 'e', 'f', 'g', 'h', 'i', 'j', 'k', 'l', 'm',
   'n', 'o', 'p', 'q', 'r', 's', 't', 'u', 'v', 'w', 'x', 'y', 'z',
   '0', '1', '2', '3', '4', '5', '6', '7', '8', '9', '-', '_']

def encodeB64Char (n : Nat) : Char := b64Alphabet.getD n 'A'

def decodeB64Char (c : Char) : Option Nat := b64Alphabet.findIdx? (fun a => a == c)

/-- One full three-byte group as four alphabet characters. -/
def encode3 (x y z : Nat) : List Char :=
  [encodeB64Char (x / 4), encodeB64Char (x % 4 * 16 + y / 16),
   encodeB64Char (y % 16 * 4 + z / 64), encodeB64Char (z % 64)]

/-- Raw (unpadded) base64url encoding, `base64.RawURLEncoding.EncodeToString`. -/
def encodeRawChars : List Nat → List Char
  | [] => []
  | [x] => [encodeB64Char (x / 4), encodeB64Char (x % 4 * 16)]
  | [x, y] => [encodeB64Char (x / 4), encodeB64Char (x % 4 * 16 + y / 16),
               encodeB64Char (y % 16 * 4)]
  | x :: y :: z :: rest => encode3 x y z ++ encodeRawChars rest

/-- Padded base64url encoding, `base64.URLEncoding.EncodeToString`. -/
def encodePaddedChars : List Nat → List Char
  | [] => []
  | [x] => [encodeB64Char (x / 4), encodeB64Char (x % 4 * 16), '=', '=']
  | [x, y] => [encodeB64Char (x / 4), encodeB64Char (x % 4 * 16 + y / 16),
               encodeB64Char (y % 16 * 4), '=']
  | x :: y :: z :: rest => encode3 x y z ++ encodePaddedChars rest

def encodeRaw (bs : List Nat) : String := String.mk (encodeRawChars bs)

def encodePadded (bs : List Nat) : String := String.mk (encodePaddedChars bs)

/-- Raw (unpadded) decoding, `base64.RawURLEncoding.DecodeString`: four-char
quanta with a final quantum of two or three characters allowed; a final
quantum of one character is an error. -/
def decodeRawChars : List Char → Option (List Nat)
  | [] => some []
  | [_] => none
  | [c1, c2] =>
      match decodeB64Char c1, decodeB64Char c2 with
      | some a, some b => some [a * 4 + b / 16]
      | _, _ => none
  | [c1, c2, c3] =>
      match decodeB64Char c1, decodeB64Char c2, decodeB64Char c3 with
      | some a, some b, some c => some [a * 4 + b / 16, b % 16 * 16 + c / 4]
      | _, _, _ => none
  | c1 :: c2 :: c3 :: c4 :: rest =>
      match decodeB64Char c1, decodeB64Char c2, decodeB64Char c3, decodeB64Char c4,
          decodeRawChars rest with
      | some a, some b, some c, some d, some tail =>
          some ((a * 4 + b / 16) :: (b % 16 * 16 + c / 4) :: (c % 4 * 64 + d) :: tail)
      | _, _, _, _, _ => none

/-- Padded decoding, `base64.URLEncoding.DecodeString`: the input length must
be a multiple of four; `=` may appear only as the final one or two characters
of the final quantum. -/
def decodePaddedQuanta : List Char → Option (List Nat)
  | [] => some []
  | c1 :: c2 :: c3 :: c4 :: rest =>
      match decodeB64Char c1, decodeB64Char c2 with
      | some a, some b =>
          if c4 = '=' then
            if rest ≠ [] then none
            else if c3 = '=' then some [a * 4 + b / 16]
            else match decodeB64Char c3 with
              | some c => some [a * 4 + b / 16, b % 16 * 16 + c / 4]
              | none => none
          else match decodeB64Char c3, decodeB64Char c4, decodePaddedQuanta rest with
            | some c, some d, some tail =>
                some ((a * 4 + b / 16) :: (b % 16 * 16 + c / 4) :: (c % 4 * 64 + d) :: tail)
            | _, _, _ => none
      | _, _ => none
  | _ => none

/-- `base64urlDecode`: padded decoding first, then raw unpadded decoding. -/
def base64urlDecode (base64String : String) : Except String (List Nat) :=
  match decodePaddedQuanta base64String.toList with
  | some bs => .ok bs
  | none =>
    match decodeRawChars base64String.toList with
    | some bs => .ok bs
    | none => .error "String did not decode as valid base64"

/-! ## Users and JSON decoding (UserV2FromBase64, evaluateAllFeatureFlags)

`encoding/json` is an external library; JSON texts are represented by their
parse result: a `Json` value on success, an error string on malformed input.
The parser itself enters the handler model as the parameter `jsonParse`
(mapping the decoded path bytes to their parse result) or as the
already-parsed `bodyParse` field of the request.  Of the go-client v2
`ld.User` struct only the `Key *string` field is modelled: it is the only
field the relay code reads. -/

inductive Json where
  | null
  | bool (b : Bool)
  | num (n : Int)
  | str (s : String)
  | arr (elems : List Json)
  | obj (fields : List (String × Json))

structure User where
  key : Option String
deriving DecidableEq

/-- Go object decoding keeps the last value of a duplicated key. -/
def lookupLastField (fields : List (String × Json)) (k : String) : Option Json :=
  match fields.reverse.find? (fun p => p.1 == k) with
  | some p => some p.2
  | none => none

/-- `json.Unmarshal` into a `ld.User` value: JSON `null` leaves the zero
value, an object decodes its `key` field into `Key *string` (absent or `null`
gives `nil`), and any other JSON value is a type error. -/
def unmarshalUserVal : Json → Except String User
  | .null => .ok { key := none }
  | .obj fields =>
      match lookupLastField fields "key" with
      | none => .ok { key := none }
      | some .null => .ok { key := none }
      | some (.str s) => .ok { key := some s }
      | some _ => .error "json: cannot unmarshal value into Go struct field User.key of type string"
  | _ => .error "json: cannot unmarshal value into Go value of type ld.User"

/-- `json.Unmarshal` into a `*ld.User` pointer (the REPORT body): the JSON
literal `null` sets the pointer to `nil` without error. -/
def unmarshalUserPtr : Except String Json → Except String (Option User)
  | .error e => .error e
  | .ok .null => .ok none
  | .ok v => (unmarshalUserVal v).map some

/-- `ErrorJsonMsg` (ld-relay.go lines 443-446): models
`json.Marshal(errorJson\x7bmsg\x7d)` for messages containing no characters
that JSON escaping would rewrite (every message the relay produces is such). -/
def ErrorJsonMsg (msg : String) : String := "\x7b\"message\":\"" ++ msg ++ "\"\x7d"

/-- `UserV2FromBase64` (ld-relay.go lines 451-468): base64url-decode the path
segment, unmarshal it as a user, and require a non-nil `key`. -/
def UserV2FromBase64 (jsonParse : List Nat → Except String Json) (base64User : String) :
    Except String User :=
  match base64urlDecode base64User with
  | .error _ => .error "User part of url path did not decode as valid base64"
  | .ok idStr =>
    match (jsonParse idStr).bind unmarshalUserVal with
    | .error _ => .error "User part of url path did not decode to valid user as json"
    | .ok user =>
      if user.key = none then .error "User must have a \x27key\x27 attribute"
      else .ok user

inductive HttpMethod where
  | get
  | report
deriving DecidableEq

/-- An evaluation request as the handler sees it: the method, the
`Content-Type` header value (empty when absent), the parse result of the
REPORT body, and the `\x7buser\x7d` mux path variable. -/
structure EvalRequest where
  method : HttpMethod
  contentType : String
  bodyParse : Except String Json
  pathUser : String

/-- What the handler did: wrote a response (status, `Content-Type` header if
set, body), or hit a nil-pointer dereference. -/
inductive EvalOutcome where
  | response (status : Nat) (contentType : Option String) (body : String)
  | panicked
deriving DecidableEq

def statusOf : EvalOutcome → Option Nat
  | .response st _ _ => some st
  | .panicked => none

/-- `evaluateAllFeatureFlags` (ld-relay.go lines 411-441).  `allFlags` is the
environment evaluator taken from the request context (the serialised
`client.AllFlags` result); an outcome that is independent of `allFlags` means
the evaluator was not called.  On REPORT the user pointer is dereferenced
(`*user`) before the evaluator is called, so a `nil` pointer panics. -/
def evaluateAllFeatureFlags (jsonParse : List Nat → Except String Json)
    (allFlags : User → String) (req : EvalRequest) : EvalOutcome :=
  match req.method with
  | .report =>
    if req.contentType ≠ "application/json" then
      .response 415 none "Content-Type must be application/json."
    else
      match unmarshalUserPtr req.bodyParse with
      | .error e => .response 400 none (ErrorJsonMsg e)
      | .ok none => .panicked
      | .ok (some user) => .response 200 (some "application/json") (allFlags user)
  | .get =>
    match UserV2FromBase64 jsonParse req.pathUser with
    | .error e => .response 400 none (ErrorJsonMsg e)
    | .ok user => .response 200 (some "application/json") (allFlags user)

/-! ## getGoals (ld-relay.go lines 381-403)

The goals passthrough: sets the permissive CORS header, issues a GET to
`baseUri + /sdk/goals/ + envId` with the inbound `Authorization` header (the
external HTTP client is the `upstream` parameter, mapping the request URL and
forwarded auth header to its result), replies 500 with an empty body on
transport error, and otherwise copies the first `Content-Type` header value,
the status code and the body of the upstream response.  The code indexes
`res.Header["Content-Type"][0]` without a length check, so an upstream
success response with no `Content-Type` header panics. -/

structure UpstreamResponse where
  status : Nat
  contentTypeValues : List String
  body : String

inductive GoalsOutcome where
  | response (cors : Bool) (status : Nat) (contentType : Option String) (body : String)
  | panicked
deriving DecidableEq

def goalsUrl (baseUri envId : String) : String := baseUri ++ "/sdk/goals/" ++ envId

def getGoals (baseUri envId auth : String)
    (upstream : String → String → Except String UpstreamResponse) : GoalsOutcome :=
  match upstream (goalsUrl baseUri envId) auth with
  | .error _ => .response true 500 none ""
  | .ok res =>
    match res.contentTypeValues with
    | [] => .panicked
    | ct :: _ => .response true res.status (some ct) res.body

/-! # Theorems -/

/-! ## Claim C1 -/

theorem matchesToken_api_lead (rest : List Char) :
    matchesToken ('a' :: 'p' :: 'i' :: '_' :: rest) = false := rfl

theorem matchHeader_append (l : List Char) :
    matchHeader (apiKeyChars ++ l) = if matchesToken l then some l else none := by
  have habs : matchesToken (apiKeyChars ++ l) = false := matchesToken_api_lead _
  have h8 : apiKeyChars.length = 8 := rfl
  unfold matchHeader
  rw [← h8, List.take_left, List.drop_left]
  by_cases hmt : matchesToken l = true
  · rw [if_pos ⟨rfl, hmt⟩, if_pos hmt]
  · rw [if_neg (fun hc => hmt hc.2), if_neg hmt, if_neg (by simp [habs])]

theorem matchHeader_no_lead (l : List Char) (h : l.take 8 ≠ apiKeyChars) :
    matchHeader l = if matchesToken l then some l else none := by
  unfold matchHeader
  rw [if_neg (fun hc => h hc.1)]

/-- Claim C1, counterexample: the claim quantifies over every credential
string `t`.  Take `t` itself of the form `api_key <uuid>`: the bare header
`t` authorizes (capturing the uuid), while the prefixed header
`api_key api_key <uuid>` is rejected, so the two are not treated identically. -/
theorem C1_counterexample :
    fetchAuthToken ("api_key " ++ "api_key 01234567-0123-4123-8123-0123456789ab") ≠
      fetchAuthToken "api_key 01234567-0123-4123-8123-0123456789ab" := by
  have h1 : fetchAuthToken ("api_key " ++ "api_key 01234567-0123-4123-8123-0123456789ab")
      = Except.error "No valid token found" := rfl
  have h2 : fetchAuthToken "api_key 01234567-0123-4123-8123-0123456789ab"
      = Except.ok "01234567-0123-4123-8123-0123456789ab" := rfl
  rw [h1, h2]
  intro hcontra
  exact Except.noConfusion hcontra

/-- Claim C1 (amended): for every credential string `t` that does not itself
begin with the eight characters `api_key `, the header `api_key <t>` and the
header `t` are treated identically by `fetchAuthToken`: both return the same
token, or both the same error.  (Registered credentials never begin with
`api_key `, so authorization outcome and selected environment agree for them.) -/
theorem C1_prefix_invariance (t : String) (h : t.toList.take 8 ≠ apiKeyChars) :
    fetchAuthToken ("api_key " ++ t) = fetchAuthToken t := by
  unfold fetchAuthToken
  rw [show ("api_key " ++ t).toList = apiKeyChars ++ t.toList from rfl,
    matchHeader_append, matchHeader_no_lead t.toList h]

/-- Witness for C1: a concrete uuid-shaped credential is authorized
identically with and without the `api_key ` lead. -/
theorem C1_witness :
    fetchAuthToken ("api_key " ++ "01234567-0123-4123-8123-0123456789ab") =
      fetchAuthToken "01234567-0123-4123-8123-0123456789ab" :=
  C1_prefix_invariance "01234567-0123-4123-8123-0123456789ab" (by decide)

/-! ## Claim C4 -/

/-- Claim C4, counterexample: when the `Authorization` header does not match
the token pattern the code replies 401 but writes no body at all
(`w.WriteHeader` only, no `w.Write`), so the claimed literal explanatory text
body is absent: the body is the empty string. -/
theorem C4_counterexample :
    authorizeMethod [("01234567-0123-4123-8123-0123456789ab", some 1)] "not-a-token"
      = .rejected 401 "" ∧ "" ≠ "ld-relay is not configured for the provided key" := by
  constructor
  · rfl
  · intro hcontra
    exact String.noConfusion hcontra (fun h => List.noConfusion h)

/-- Claim C4 (amended): on a credential-authorized endpoint, a request whose
`Authorization` header does not match the token pattern is rejected with 401
and an empty body, and a request whose extracted token is not a registered
credential of the endpoint kind (absent from the map, or registered but `nil`)
is rejected with 401 and the literal body
`ld-relay is not configured for the provided key`; in both cases the outcome
is `rejected`, so the wrapped handler is not invoked.  Moreover every
rejection carries status 401. -/
theorem C4_unauthorized {V : Type} (m : List (String × Option V)) (hdr : String) :
    (∀ e, fetchAuthToken hdr = .error e → authorizeMethod m hdr = .rejected 401 "") ∧
    (∀ k, fetchAuthToken hdr = .ok k → goMapLookup m k = none →
      authorizeMethod m hdr = .rejected 401 "ld-relay is not configured for the provided key") ∧
    (∀ st b, authorizeMethod m hdr = .rejected st b → st = 401) := by
  refine ⟨fun e he => ?_, fun k hk hmiss => ?_, fun st b hr => ?_⟩
  · simp only [authorizeMethod, he]
  · simp only [authorizeMethod, hk, hmiss]
  · unfold authorizeMethod at hr
    cases hck : fetchAuthToken hdr with
    | error e =>
      simp only [hck] at hr
      injection hr with h1 h2
      exact h1.symm
    | ok k =>
      simp only [hck] at hr
      cases hmk : goMapLookup m k with
      | none =>
        simp only [hmk] at hr
        injection hr with h1 h2
        exact h1.symm
      | some v =>
        simp only [hmk] at hr
        exact AuthOutcome.noConfusion hr

/-- Witness for C4: a pattern-mismatch header is rejected 401 with empty body,
and a well-formed but unregistered token is rejected 401 with the literal body. -/
theorem C4_witness :
    authorizeMethod ([] : List (String × Option Nat)) "bogus" = .rejected 401 "" ∧
    authorizeMethod ([] : List (String × Option Nat)) "01234567-0123-4123-8123-0123456789ab"
      = .rejected 401 "ld-relay is not configured for the provided key" :=
  ⟨(C4_unauthorized [] "bogus").1 "No valid token found" rfl,
   (C4_unauthorized [] "01234567-0123-4123-8123-0123456789ab").2.1
     "01234567-0123-4123-8123-0123456789ab" rfl rfl⟩

theorem getStatus_fold (l : List (String × Option LDClientM)) :
    ∀ (acc : List (String × String)) (flag : Bool),
      l.foldl statusStep (acc, flag)
        = (acc ++ l.map (fun p => (p.1, if statusConnected p.2 then "connected" else "disconnected")),
           flag && l.all (fun p => statusConnected p.2)) := by
  induction l with
  | nil => intro acc flag; simp
  | cons p rest ih =>
    intro acc flag
    rw [List.foldl_cons]
    cases hp : p.2 with
    | none =>
      rw [show statusStep (acc, flag) p = (acc ++ [(p.1, "disconnected")], false) by
        simp [statusStep, hp]]
      rw [ih]
      simp [statusConnected, hp]
    | some c =>
      cases hc : c.initialized with
      | false =>
        rw [show statusStep (acc, flag) p = (acc ++ [(p.1, "disconnected")], false) by
          simp [statusStep, hp, hc]]
        rw [ih]
        simp [statusConnected, hp, hc]
      | true =>
        rw [show statusStep (acc, flag) p = (acc ++ [(p.1, "connected")], flag) by
          simp [statusStep, hp, hc]]
        rw [ih]
        simp [statusConnected, hp, hc]

/-- Claim C5 (confirmed): the `/status` response maps each registered server
credential to `connected` exactly when its handle is non-`nil` and reports
initialised (`disconnected` otherwise), and the top-level status is `healthy`
exactly when every entry is connected, `degraded` otherwise. -/
theorem C5_status_healthy_iff_all_connected (clients : List (String × Option LDClientM)) :
    (getStatus clients).1
      = clients.map (fun p => (p.1, if statusConnected p.2 then "connected" else "disconnected"))
    ∧ ((getStatus clients).2 = "healthy" ↔ ∀ p ∈ clients, statusConnected p.2 = true)
    ∧ ((getStatus clients).2 ≠ "healthy" → (getStatus clients).2 = "degraded") := by
  unfold getStatus
  rw [getStatus_fold]
  refine ⟨by simp, ?_, ?_⟩
  · rw [Bool.true_and]
    by_cases h : clients.all (fun p => statusConnected p.2) = true
    · simp only [h, if_pos rfl]
      simp [List.all_eq_true] at h
      simpa using h
    · have hf : clients.all (fun p => statusConnected p.2) = false := by
        simpa using h
      rw [hf]
      simp only [Bool.false_eq_true, if_neg (by trivial)]
      constructor
      · intro habs
        exact absurd habs (by decide)
      · intro hall
        exact absurd (List.all_eq_true.mpr hall) h
  · intro hne
    rw [Bool.true_and] at hne ⊢
    by_cases h : clients.all (fun p => statusConnected p.2) = true
    · rw [h] at hne
      simp at hne
    · have hf : clients.all (fun p => statusConnected p.2) = false := by simpa using h
      rw [hf]
      rfl

/-- Witness for C5: with one initialised and one `nil` entry the status is
degraded; with only the initialised entry it is healthy. -/
theorem C5_witness :
    (getStatus [("key-a", some ⟨true⟩)]).2 = "healthy" ∧
    (getStatus [("key-a", some ⟨true⟩), ("key-b", none)]).2 = "degraded" :=
  ⟨(C5_status_healthy_iff_all_connected [("key-a", some ⟨true⟩)]).2.1.mpr (by decide),
   (C5_status_healthy_iff_all_connected [("key-a", some ⟨true⟩), ("key-b", none)]).2.2 (by decide)⟩

/-- Claim C8 (confirmed): a browser-route request whose `envId` path segment is
not a registered browser environment id is rejected with 404 and the
explanatory body, without invoking the inner handler; and the outcome is a
function of the path segment only, not of the `Authorization` header. -/
theorem C8_unknown_env {V : Type} (clients : List (String × Option V)) (envId h1 h2 : String) :
    (goMapLookup clients envId = none →
      findEnvironment clients envId h1
        = .rejected 404 ("ld-relay is not configured for environment id " ++ envId))
    ∧ findEnvironment clients envId h1 = findEnvironment clients envId h2 := by
  constructor
  · intro hmiss
    simp only [findEnvironment, hmiss]
  · rfl

/-- Witness for C8: an unknown environment id yields 404 with the explanatory
body naming the id. -/
theorem C8_witness :
    findEnvironment [("576c4cc0aaaa111122223333", some 7)] "unknown-env" "any-header"
      = .rejected 404 ("ld-relay is not configured for environment id " ++ "unknown-env") :=
  (C8_unknown_env [("576c4cc0aaaa111122223333", some 7)] "unknown-env" "any-header" "x").1 rfl

/-- Claim C6, counterexample: with neither flag set and a failed
initialisation, the claim says the environment is left unregistered so that no
request presenting its credentials is served; but the code installs the
credential map entries before checking the error, so the credential maps do
contain the environment (evaluation requests with its keys are still routed to
it), only the stream handler is absent. -/
theorem C6_counterexample :
    (setupEnvironment false false false true).clientEntries = true := rfl

/-- Claim C6 (amended): if the SDK client fails to initialise, then when
`exitOnError` is set and `ignoreConnectionErrors` is not, the process calls
`os.Exit 1`; when `ignoreConnectionErrors` is set the environment is fully
registered (credential entries, stream handler, and the event handler exactly
when `sendEvents` is set); and when neither flag is set the process keeps
running with the stream and event handlers left unregistered while the
credential map entries remain installed. -/
theorem C6_failure_policy (exitOnError ignoreConnectionErrors sendEvents initErr : Bool) :
    (initErr = true → ignoreConnectionErrors = false → exitOnError = true →
      (setupEnvironment exitOnError ignoreConnectionErrors sendEvents initErr).exitCode = some 1)
    ∧ (ignoreConnectionErrors = true →
      setupEnvironment exitOnError ignoreConnectionErrors sendEvents initErr
        = { exitCode := none, clientEntries := true, streamHandler := true,
            eventHandler := sendEvents })
    ∧ (initErr = true → ignoreConnectionErrors = false → exitOnError = false →
      setupEnvironment exitOnError ignoreConnectionErrors sendEvents initErr
        = { exitCode := none, clientEntries := true, streamHandler := false,
            eventHandler := false }) := by
  refine ⟨fun he hi hx => ?_, fun hi => ?_, fun he hi hx => ?_⟩
  · subst he; subst hi; subst hx; rfl
  · subst hi; simp [setupEnvironment]
  · subst he; subst hi; subst hx; rfl

/-- Witness for C6: with `exitOnError` and a failed initialisation the process
exits with code 1; with `ignoreConnectionErrors` the environment is registered. -/
theorem C6_witness :
    (setupEnvironment true false false true).exitCode = some 1 ∧
    setupEnvironment false true true true
      = { exitCode := none, clientEntries := true, streamHandler := true, eventHandler := true } :=
  ⟨(C6_failure_policy true false false true).1 rfl rfl rfl,
   (C6_failure_policy false true true true).2.1 rfl⟩

/-! ## Claim C7 -/

/-- Claim C7 (confirmed): a REPORT evaluation request whose `Content-Type`
differs from `application/json` is answered 415 with the text body and the
evaluator is not called (the outcome is independent of `allFlags`); a REPORT
request whose `Content-Type` is exactly `application/json` is never answered
415. -/
theorem C7_report_content_type (jsonParse : List Nat → Except String Json)
    (f g : User → String) (req : EvalRequest) (hm : req.method = .report) :
    (req.contentType ≠ "application/json" →
      evaluateAllFeatureFlags jsonParse f req
        = .response 415 none "Content-Type must be application/json."
      ∧ evaluateAllFeatureFlags jsonParse f req = evaluateAllFeatureFlags jsonParse g req)
    ∧ (req.contentType = "application/json" →
      statusOf (evaluateAllFeatureFlags jsonParse f req) ≠ some 415) := by
  constructor
  · intro hct
    have hf : evaluateAllFeatureFlags jsonParse f req
        = .response 415 none "Content-Type must be application/json." := by
      simp only [evaluateAllFeatureFlags, hm]
      rw [if_pos hct]
    have hg : evaluateAllFeatureFlags jsonParse g req
        = .response 415 none "Content-Type must be application/json." := by
      simp only [evaluateAllFeatureFlags, hm]
      rw [if_pos hct]
    exact ⟨hf, hf.trans hg.symm⟩
  · intro hct
    simp only [evaluateAllFeatureFlags, hm]
    rw [if_neg (fun hcc => hcc hct)]
    cases hup : unmarshalUserPtr req.bodyParse with
    | error e => simp [statusOf]
    | ok ou =>
      cases ou with
      | none => simp [statusOf]
      | some u => simp [statusOf]

/-- Witness for C7: a REPORT with `Content-Type: text/plain` is answered 415;
one with `Content-Type: application/json` is not. -/
theorem C7_witness :
    evaluateAllFeatureFlags (fun _ => .error "e") (fun _ => "\x7b\x7d")
      ⟨.report, "text/plain", .error "e", ""⟩
      = .response 415 none "Content-Type must be application/json."
    ∧ statusOf (evaluateAllFeatureFlags (fun _ => .error "e") (fun _ => "\x7b\x7d")
      ⟨.report, "application/json", .error "e", ""⟩) ≠ some 415 :=
  ⟨((C7_report_content_type (fun _ => .error "e") (fun _ => "\x7b\x7d") (fun _ => "\x7b\x7d")
      ⟨.report, "text/plain", .error "e", ""⟩ rfl).1 (by decide)).1,
   (C7_report_content_type (fun _ => .error "e") (fun _ => "\x7b\x7d") (fun _ => "\x7b\x7d")
      ⟨.report, "application/json", .error "e", ""⟩ rfl).2 rfl⟩

/-! ## Claim C2 -/

/-- Claim C2, counterexample: a REPORT request with `Content-Type:
application/json` whose body is a JSON object without a `key` field is NOT
answered 400 — the REPORT path performs no key check, so the handler calls
the evaluator with the keyless user and replies 200. -/
theorem C2_counterexample :
    evaluateAllFeatureFlags (fun _ => .error "unused") (fun _ => "\x7b\x7d")
      ⟨.report, "application/json", .ok (.obj [("name", .str "x")]), ""⟩
      = .response 200 (some "application/json") "\x7b\x7d" := rfl

/-- Claim C2 (amended): for every GET evaluation request whose path segment
decodes and parses to a user value lacking a non-null `key` field, the
handler replies 400 with the JSON body produced by `ErrorJsonMsg` applied to
`User must have a \x27key\x27 attribute`, and the evaluator is not called
(the outcome is independent of `allFlags`).  The REPORT path performs no such
check. -/
theorem C2_get_missing_key (jsonParse : List Nat → Except String Json)
    (f g : User → String) (req : EvalRequest) (hm : req.method = .get)
    (bytes : List Nat) (hdec : base64urlDecode req.pathUser = .ok bytes)
    (v : Json) (hparse : jsonParse bytes = .ok v)
    (u : User) (hu : unmarshalUserVal v = .ok u) (hkey : u.key = none) :
    evaluateAllFeatureFlags jsonParse f req
      = .response 400 none (ErrorJsonMsg "User must have a \x27key\x27 attribute")
    ∧ evaluateAllFeatureFlags jsonParse f req = evaluateAllFeatureFlags jsonParse g req := by
  have hu2 : UserV2FromBase64 jsonParse req.pathUser
      = .error "User must have a \x27key\x27 attribute" := by
    simp only [UserV2FromBase64, hdec, hparse, Except.bind, hu]
    rw [if_pos hkey]
  constructor
  · simp only [evaluateAllFeatureFlags, hm, hu2]
  · simp only [evaluateAllFeatureFlags, hm, hu2]

/-- Witness for C2: `bnVsbA` is the raw base64url encoding of the bytes of
`null`; parsed as JSON `null` it unmarshals to the zero user, whose key is
nil, so the GET handler replies 400 with the fixed message. -/
theorem C2_witness :
    evaluateAllFeatureFlags (fun _ => .ok .null) (fun _ => "\x7b\x7d")
      ⟨.get, "", .error "", "bnVsbA"⟩
      = .response 400 none (ErrorJsonMsg "User must have a \x27key\x27 attribute") :=
  (C2_get_missing_key (fun _ => .ok .null) (fun _ => "\x7b\x7d") (fun _ => "\x7b\x7d")
    ⟨.get, "", .error "", "bnVsbA"⟩ rfl
    [110, 117, 108, 108] rfl .null rfl ⟨none⟩ rfl rfl).1

/-! ## Claim C10 -/

/-- Claim C10 (refuted; the code panics): an authorized REPORT request with
`Content-Type: application/json` and the valid JSON body `null` makes
`json.Unmarshal` leave the user pointer `nil` with no error, and the handler
then dereferences it (`*user`) — a nil-pointer panic, so no HTTP response is
written by the handler. -/
theorem C10_null_body_panics :
    evaluateAllFeatureFlags (fun _ => .error "unused") (fun _ => "\x7b\x7d")
      ⟨.report, "application/json", .ok .null, ""⟩ = .panicked := rfl

/-! ## Claim C3: the base64url round trips -/

theorem decodeB64Char_encodeB64Char : ∀ n < 64, decodeB64Char (encodeB64Char n) = some n := by
  decide

theorem encodeB64Char_ne_pad : ∀ n < 64, encodeB64Char n ≠ '=' := by decide


theorem decodeRaw_encodeRaw : ∀ bs : List Nat, (∀ b ∈ bs, b < 256) →
    decodeRawChars (encodeRawChars bs) = some bs
  | [], _ => rfl
  | [x], h => by
      have hx : x < 256 := h x (by simp)
      have e1 := decodeB64Char_encodeB64Char (x / 4) (by omega)
      have e2 := decodeB64Char_encodeB64Char (x % 4 * 16) (by omega)
      simp only [encodeRawChars, decodeRawChars, e1, e2]
      rw [show x / 4 * 4 + x % 4 * 16 / 16 = x by omega]
  | [x, y], h => by
      have hx : x < 256 := h x (by simp)
      have hy : y < 256 := h y (by simp)
      have e1 := decodeB64Char_encodeB64Char (x / 4) (by omega)
      have e2 := decodeB64Char_encodeB64Char (x % 4 * 16 + y / 16) (by omega)
      have e3 := decodeB64Char_encodeB64Char (y % 16 * 4) (by omega)
      simp only [encodeRawChars, decodeRawChars, e1, e2, e3]
      rw [show x / 4 * 4 + (x % 4 * 16 + y / 16) / 16 = x by omega,
        show (x % 4 * 16 + y / 16) % 16 * 16 + y % 16 * 4 / 4 = y by omega]
  | x :: y :: z :: rest, h => by
      have hx : x < 256 := h x (by simp)
      have hy : y < 256 := h y (by simp)
      have hz : z < 256 := h z (by simp)
      have ih := decodeRaw_encodeRaw rest (fun b hb => h b (by simp [hb]))
      have e1 := decodeB64Char_encodeB64Char (x / 4) (by omega)
      have e2 := decodeB64Char_encodeB64Char (x % 4 * 16 + y / 16) (by omega)
      have e3 := decodeB64Char_encodeB64Char (y % 16 * 4 + z / 64) (by omega)
      have e4 := decodeB64Char_encodeB64Char (z % 64) (by omega)
      have henc : encodeRawChars (x :: y :: z :: rest)
          = encodeB64Char (x / 4) :: encodeB64Char (x % 4 * 16 + y / 16)
            :: encodeB64Char (y % 16 * 4 + z / 64) :: encodeB64Char (z % 64)
            :: encodeRawChars rest := rfl
      rw [henc]
      simp only [decodeRawChars, e1, e2, e3, e4, ih]
      rw [show x / 4 * 4 + (x % 4 * 16 + y / 16) / 16 = x by omega,
        show (x % 4 * 16 + y / 16) % 16 * 16 + (y % 16 * 4 + z / 64) / 4 = y by omega,
        show (y % 16 * 4 + z / 64) % 4 * 64 + z % 64 = z by omega]

theorem decodePadded_encodePadded : ∀ bs : List Nat, (∀ b ∈ bs, b < 256) →
    decodePaddedQuanta (encodePaddedChars bs) = some bs
  | [], _ => rfl
  | [x], h => by
      have hx : x < 256 := h x (by simp)
      have e1 := decodeB64Char_encodeB64Char (x / 4) (by omega)
      have e2 := decodeB64Char_encodeB64Char (x % 4 * 16) (by omega)
      have henc : encodePaddedChars [x]
          = [encodeB64Char (x / 4), encodeB64Char (x % 4 * 16), '=', '='] := rfl
      rw [henc]
      simp only [decodePaddedQuanta, e1, e2]
      rw [if_pos trivial, if_neg (fun hne => hne rfl), if_pos trivial]
      rw [show x / 4 * 4 + x % 4 * 16 / 16 = x by omega]
  | [x, y], h => by
      have hx : x < 256 := h x (by simp)
      have hy : y < 256 := h y (by simp)
      have e1 := decodeB64Char_encodeB64Char (x / 4) (by omega)
      have e2 := decodeB64Char_encodeB64Char (x % 4 * 16 + y / 16) (by omega)
      have e3 := decodeB64Char_encodeB64Char (y % 16 * 4) (by omega)
      have hne3 : encodeB64Char (y % 16 * 4) ≠ '=' := encodeB64Char_ne_pad _ (by omega)
      have henc : encodePaddedChars [x, y]
          = [encodeB64Char (x / 4), encodeB64Char (x % 4 * 16 + y / 16),
             encodeB64Char (y % 16 * 4), '='] := rfl
      rw [henc]
      simp only [decodePaddedQuanta, e1, e2]
      rw [if_pos trivial, if_neg (fun hne => hne rfl), if_neg hne3]
      simp only [e3]
      rw [show x / 4 * 4 + (x % 4 * 16 + y / 16) / 16 = x by omega,
        show (x % 4 * 16 + y / 16) % 16 * 16 + y % 16 * 4 / 4 = y by omega]
  | x :: y :: z :: rest, h => by
      have hx : x < 256 := h x (by simp)
      have hy : y < 256 := h y (by simp)
      have hz : z < 256 := h z (by simp)
      have ih := decodePadded_encodePadded rest (fun b hb => h b (by simp [hb]))
      have e1 := decodeB64Char_encodeB64Char (x / 4) (by omega)
      have e2 := decodeB64Char_encodeB64Char (x % 4 * 16 + y / 16) (by omega)
      have e3 := decodeB64Char_encodeB64Char (y % 16 * 4 + z / 64) (by omega)
      have e4 := decodeB64Char_encodeB64Char (z % 64) (by omega)
      have hne4 : encodeB64Char (z % 64) ≠ '=' := encodeB64Char_ne_pad _ (by omega)
      have henc : encodePaddedChars (x :: y :: z :: rest)
          = encodeB64Char (x / 4) :: encodeB64Char (x % 4 * 16 + y / 16)
            :: encodeB64Char (y % 16 * 4 + z / 64) :: encodeB64Char (z % 64)
            :: encodePaddedChars rest := rfl
      rw [henc]
      simp only [decodePaddedQuanta, e1, e2]
      rw [if_neg hne4]
      simp only [e3, e4, ih]
      rw [show x / 4 * 4 + (x % 4 * 16 + y / 16) / 16 = x by omega,
        show (x % 4 * 16 + y / 16) % 16 * 16 + (y % 16 * 4 + z / 64) / 4 = y by omega,
        show (y % 16 * 4 + z / 64) % 4 * 64 + z % 64 = z by omega]

theorem encodeRaw_eq_encodePadded : ∀ bs : List Nat, bs.length % 3 = 0 →
    encodeRawChars bs = encodePaddedChars bs
  | [], _ => rfl
  | [_], h => by simp at h
  | [_, _], h => by simp at h
  | x :: y :: z :: rest, h => by
      have ih := encodeRaw_eq_encodePadded rest (by
        simp only [List.length_cons] at h ⊢
        omega)
      simp only [encodeRawChars, encodePaddedChars, ih]

theorem decodePaddedQuanta_encodeRaw_none : ∀ bs : List Nat, (∀ b ∈ bs, b < 256) →
    bs.length % 3 ≠ 0 → decodePaddedQuanta (encodeRawChars bs) = none
  | [], _, hlen => absurd rfl hlen
  | [_], _, _ => rfl
  | [_, _], _, _ => rfl
  | x :: y :: z :: rest, h, hlen => by
      have hx : x < 256 := h x (by simp)
      have hy : y < 256 := h y (by simp)
      have hz : z < 256 := h z (by simp)
      have ih := decodePaddedQuanta_encodeRaw_none rest (fun b hb => h b (by simp [hb])) (by
        simp only [List.length_cons] at hlen ⊢
        omega)
      have e1 := decodeB64Char_encodeB64Char (x / 4) (by omega)
      have e2 := decodeB64Char_encodeB64Char (x % 4 * 16 + y / 16) (by omega)
      have e3 := decodeB64Char_encodeB64Char (y % 16 * 4 + z / 64) (by omega)
      have e4 := decodeB64Char_encodeB64Char (z % 64) (by omega)
      have hne4 : encodeB64Char (z % 64) ≠ '=' := encodeB64Char_ne_pad _ (by omega)
      have henc : encodeRawChars (x :: y :: z :: rest)
          = encodeB64Char (x / 4) :: encodeB64Char (x % 4 * 16 + y / 16)
            :: encodeB64Char (y % 16 * 4 + z / 64) :: encodeB64Char (z % 64)
            :: encodeRawChars rest := rfl
      rw [henc]
      simp only [decodePaddedQuanta, e1, e2]
      rw [if_neg hne4]
      simp only [e3, e4, ih]

/-- Claim C3 (confirmed): for every byte sequence, `base64urlDecode` recovers
exactly those bytes both from the padded base64url encoding (the padded
decoding attempted first succeeds) and from the raw unpadded encoding (when
the length is not a multiple of four the padded attempt fails and the raw
decoding succeeds; when it is, the two encodings coincide): `base64urlDecode`
is a left inverse of both encoders. -/
theorem C3_base64url_left_inverse (bs : List Nat) (h : ∀ b ∈ bs, b < 256) :
    base64urlDecode (encodePadded bs) = .ok bs
    ∧ base64urlDecode (encodeRaw bs) = .ok bs := by
  have hpad : decodePaddedQuanta (encodePaddedChars bs) = some bs :=
    decodePadded_encodePadded bs h
  constructor
  · unfold base64urlDecode
    rw [show (encodePadded bs).toList = encodePaddedChars bs from rfl, hpad]
  · unfold base64urlDecode
    rw [show (encodeRaw bs).toList = encodeRawChars bs from rfl]
    by_cases h3 : bs.length % 3 = 0
    · rw [encodeRaw_eq_encodePadded bs h3, hpad]
    · rw [decodePaddedQuanta_encodeRaw_none bs h h3, decodeRaw_encodeRaw bs h]

/-- Witness for C3: the bytes of `hi!` survive the round trip through both
encoders (raw length 4 exercises the padded-first path; a second list of
length 2 exercises the raw fallback). -/
theorem C3_witness :
    (base64urlDecode (encodePadded [104, 105, 33]) = .ok [104, 105, 33]
      ∧ base64urlDecode (encodeRaw [104, 105, 33]) = .ok [104, 105, 33])
    ∧ (base64urlDecode (encodePadded [104, 105]) = .ok [104, 105]
      ∧ base64urlDecode (encodeRaw [104, 105]) = .ok [104, 105]) :=
  ⟨C3_base64url_left_inverse [104, 105, 33] (by decide),
   C3_base64url_left_inverse [104, 105] (by decide)⟩

/-! ## Claim C9 -/

/-- Claim C9, counterexample: when the upstream request succeeds but the
upstream response carries no `Content-Type` header, the handler indexes the
empty header-value slice and panics instead of writing the upstream status
code and body unchanged as the claim states. -/
theorem C9_counterexample :
    getGoals "https://app.launchdarkly.com" "env1" "auth-header"
      (fun _ _ => .ok { status := 200, contentTypeValues := [], body := "hello" })
      = .panicked := rfl

/-- Claim C9 (amended): the handler issues a GET to
`baseUri ++ /sdk/goals/ ++ envId` carrying the inbound `Authorization` header
(the outcome depends on the upstream only at that URL and header) and sets the
permissive CORS header; on transport error it replies 500 with an empty body;
on success it copies the upstream status code, body, and `Content-Type` —
provided the upstream response carries a `Content-Type` header at all, for
otherwise the handler panics. -/
theorem C9_goals_passthrough (baseUri envId auth : String)
    (upstream upstream2 : String → String → Except String UpstreamResponse) :
    (∀ e, upstream (goalsUrl baseUri envId) auth = .error e →
      getGoals baseUri envId auth upstream = .response true 500 none "")
    ∧ (∀ res ct cts, upstream (goalsUrl baseUri envId) auth = .ok res →
      res.contentTypeValues = ct :: cts →
      getGoals baseUri envId auth upstream = .response true res.status (some ct) res.body)
    ∧ (upstream (goalsUrl baseUri envId) auth = upstream2 (goalsUrl baseUri envId) auth →
      getGoals baseUri envId auth upstream = getGoals baseUri envId auth upstream2) := by
  refine ⟨fun e he => ?_, fun res ct cts hok hct => ?_, fun hsame => ?_⟩
  · simp only [getGoals, he]
  · simp only [getGoals, hok, hct]
  · simp only [getGoals, hsame]

/-- Witness for C9: a transport failure yields 500 with empty body; a 304
success with a `Content-Type` header is copied through unchanged. -/
theorem C9_witness :
    getGoals "https://app.launchdarkly.com" "env1" "sdk-auth" (fun _ _ => .error "dial failed")
      = .response true 500 none ""
    ∧ getGoals "https://app.launchdarkly.com" "env1" "sdk-auth"
        (fun _ _ => .ok { status := 304, contentTypeValues := ["application/json"], body := "" })
      = .response true 304 (some "application/json") "" :=
  ⟨(C9_goals_passthrough "https://app.launchdarkly.com" "env1" "sdk-auth"
      (fun _ _ => .error "dial failed") (fun _ _ => .error "dial failed")).1 "dial failed" rfl,
   (C9_goals_passthrough "https://app.launchdarkly.com" "env1" "sdk-auth"
      (fun _ _ => .ok { status := 304, contentTypeValues := ["application/json"], body := "" })
      (fun _ _ => .ok { status := 304, contentTypeValues := ["application/json"], body := "" })).2.1
      { status := 304, contentTypeValues := ["application/json"], body := "" }
      "application/json" [] rfl rfl⟩
